import Mathlib

/-!
Formal model of the EPS aggregation core of the eps-estimates-collector
repository (file `src/factset_report_analyzer/analysis/sp500.py`).

Conventions of the embedding:
- `pd.Timestamp` becomes the `Date` structure, ordered lexicographically by
  (year, month, day); `Timestamp.quarter` is `(month - 1) / 3 + 1`.
- Quarter column labels such as the string produced by `f"Q{q}'{y:02d}"` become
  the `QLabel` structure holding the quarter number `q` and the two-digit year
  `y`; the formatting is injective on the values the code produces
  (`q` in 1..4, `y` in 0..99), so label equality is `QLabel` equality.
- Python `int` arithmetic on quarters uses floor division and floor modulus by
  the positive constants 4 and 100, which coincide with `Int.ediv`/`Int.emod`,
  the `/` and `%` of Lean `Int`.
- A pandas DataFrame of EPS reports becomes `EpsTable`: an explicit column
  list plus a row list; a NaN cell or a cell of a column the row does not
  carry are both "missing" (`getCell` returns `none`).
- Cell contents are raw text (`List Char`); numpy/pandas floats are idealised
  as `ℚ` (and as `ℝ` where a square root enters).
- Functions that can raise return `Except PyError`; `PyError.keyError` models
  the pandas `KeyError` raised by column selection `df[cols]` when a requested
  column is absent (pandas >= 1.0), `PyError.valueError` models Python
  `ValueError` (from `float(...)` on unparseable text and from `set_type`).
-/

/-- Python exception kinds that the modelled code can raise. -/
inductive PyError where
  | keyError
  | valueError
deriving DecidableEq

/-- Calendar date, modelling `pd.Timestamp` at day granularity. -/
structure Date where
  year : Int
  month : Int
  day : Int
deriving DecidableEq

/-- Chronological comparison of timestamps, as a boolean (lexicographic on
year, month, day). Models `Report_Date <= price_date`. -/
def Date.le (a b : Date) : Bool :=
  decide (a.year < b.year ∨ (a.year = b.year ∧
    (a.month < b.month ∨ (a.month = b.month ∧ a.day ≤ b.day))))

/-- Strict chronological order on dates, as a proposition. -/
def dateLT (a b : Date) : Prop :=
  a.year < b.year ∨ (a.year = b.year ∧
    (a.month < b.month ∨ (a.month = b.month ∧ a.day < b.day)))

instance (a b : Date) : Decidable (dateLT a b) := by
  unfold dateLT
  infer_instance

/-- Calendar quarter of a timestamp, modelling `pd.Timestamp.quarter`. -/
def Date.quarter (d : Date) : Int :=
  (d.month - 1) / 3 + 1

/-- A quarter column label: the pair rendered by the code as `Q{q}'{y:02d}`. -/
structure QLabel where
  q : Int
  y : Int
deriving DecidableEq

/-- The label of the calendar quarter immediately after a given label,
including the year wrap at a Q4 to Q1 boundary (two-digit years wrap
modulo 100, exactly as the `% 100` in the code does). -/
def nextQuarter (l : QLabel) : QLabel :=
  if l.q = 4 then ⟨1, (l.y + 1) % 100⟩ else ⟨l.q + 1, l.y⟩

/-- Label of the absolute quarter index `t` (counting quarters from year 0),
modelling the loop body of `quarter_mapper`:
`q = (total_quarters % 4) + 1` and `y = (total_quarters // 4) % 100`. -/
def mkLabel (t : Int) : QLabel :=
  ⟨t % 4 + 1, (t / 4) % 100⟩

/-- The integer list `range(s, e + 1)` of Python. -/
def intRange (s e : Int) : List Int :=
  (List.range (e + 1 - s).toNat).map (fun k : ℕ => s + (k : Int))

/-- Model of `quarter_mapper(report_date, start, end)` in `sp500.py`:
maps relative quarter offsets `start..end` (inclusive) to quarter column
labels anchored at the report date's own quarter. -/
def quarter_mapper (report_date : Date) (start : Int) (stop : Int) : List QLabel :=
  let base_quarter := report_date.quarter
  let base_year := report_date.year
  (intRange start stop).map (fun i => mkLabel (base_year * 4 + base_quarter - 1 + i))

/-- Digits-to-number accumulator, modelling how decimal digit runs denote
numbers in Python `float` literals. -/
def digitsToNat (cs : List Char) : ℕ :=
  cs.foldl (fun a c => 10 * a + (c.toNat - 48)) 0

/-- Unsigned part of Python `float(s)` on plain decimal literals: digits with
at most one decimal point and at least one digit in total. Exponents and the
special values `inf`/`nan` never occur in the EPS tables and are out of the
model: on such text the model answers `none` (a `ValueError`), as Python does
on genuinely malformed text. -/
def parseUnsigned (cs : List Char) : Option ℚ :=
  let intPart := cs.takeWhile (fun c => c ≠ '.')
  let rest := cs.dropWhile (fun c => c ≠ '.')
  match rest with
  | [] =>
    if intPart ≠ [] ∧ intPart.all Char.isDigit then
      some (digitsToNat intPart)
    else none
  | _ :: frac =>
    if (intPart ++ frac) ≠ [] ∧ intPart.all Char.isDigit ∧ frac.all Char.isDigit then
      some ((digitsToNat intPart : ℚ) + (digitsToNat frac : ℚ) / (10 ^ frac.length))
    else none

/-- Python `float(s)` on decimal literals: an optional sign followed by the
unsigned decimal form. -/
def pyFloat (cs : List Char) : Option ℚ :=
  match cs with
  | '-' :: r => (parseUnsigned r).map (fun x => -x)
  | '+' :: r => parseUnsigned r
  | r => parseUnsigned r

/-- Python `s.replace('*', '')`: removes every asterisk character. -/
def stripStars (cs : List Char) : List Char :=
  cs.filter (fun c => c ≠ '*')

/-- Python `s.strip()`: removes leading and trailing whitespace. -/
def pyStrip (cs : List Char) : List Char :=
  ((cs.dropWhile Char.isWhitespace).reverse.dropWhile Char.isWhitespace).reverse

/-- Model of the cell-parsing expression
`float(str(v).replace('*', '').strip())` on line 278 of `sp500.py`;
a failed parse is the `ValueError` Python raises there. -/
def parseCell (cs : List Char) : Except PyError ℚ :=
  match pyFloat (pyStrip (stripStars cs)) with
  | some x => Except.ok x
  | none => Except.error PyError.valueError

/-- One EPS report row: its filing date and the cells it carries (one raw
text value per quarter label that is present and non-NaN in that row). -/
structure Report where
  reportDate : Date
  cells : List (QLabel × List Char)
deriving DecidableEq

/-- Value of one row at one quarter column; `none` is a NaN / absent cell. -/
def getCell (r : Report) (l : QLabel) : Option (List Char) :=
  (r.cells.find? (fun p => decide (p.1 = l))).map (fun p => p.2)

/-- The EPS DataFrame: its column set (beside `Report_Date`) and its rows. -/
structure EpsTable where
  cols : List QLabel
  rows : List Report
deriving DecidableEq

/-- Model of `eps_filtered[col].dropna().iloc[-1]`: the value of the last row
(in the given row order) that carries a non-missing value for label `l`. -/
def mostRecentCell (rows : List Report) (l : QLabel) : Option (List Char) :=
  (rows.filterMap (fun r => getCell r l)).getLast?

/-- Left-to-right effectful map over a list in the `Except` monad, modelling a
Python list comprehension whose element expression can raise: the first raise
aborts the whole comprehension. -/
def exceptMap (f : α → Except ε β) : List α → Except ε (List β)
  | [] => Except.ok []
  | x :: xs =>
    match f x with
    | Except.error e => Except.error e
    | Except.ok y =>
      match exceptMap f xs with
      | Except.error e => Except.error e
      | Except.ok ys => Except.ok (y :: ys)

/-- Model of `_calculate_eps_for_date(df_eps_sorted, price_date, type)`
(lines 257-286 of `sp500.py`). Any mode string other than `"forward"` takes
the `else:  # trailing` branch, exactly as in the source. The column
selection `eps_candidates[needed_quarters]` raises a pandas `KeyError` when
some needed label is not a column of the table; this happens after the
empty-candidates check and before any cell is parsed. -/
def _calculate_eps_for_date (df_eps_sorted : EpsTable) (price_date : Date)
    (ty : String) : Except PyError (Option ℚ) :=
  let needed_quarters :=
    if ty = "forward" then quarter_mapper price_date 0 3
    else quarter_mapper price_date (-4) (-1)
  let eps_candidates :=
    df_eps_sorted.rows.filter (fun r => Date.le r.reportDate price_date)
  if eps_candidates.isEmpty then Except.ok none
  else if needed_quarters.all (fun l => decide (l ∈ df_eps_sorted.cols)) then
    match exceptMap parseCell
        (needed_quarters.filterMap (fun l => mostRecentCell eps_candidates l)) with
    | Except.error e => Except.error e
    | Except.ok values =>
      if values.length = 4 then
        Except.ok (if values.sum > 0 then some values.sum else none)
      else Except.ok none
  else Except.error PyError.keyError

/-- Insertion step of the ascending sort on `Report_Date`. -/
def insertReport (r : Report) : List Report → List Report
  | [] => [r]
  | x :: xs =>
    if Date.le r.reportDate x.reportDate then r :: x :: xs
    else x :: insertReport r xs

/-- Model of `df_eps.sort_values('Report_Date')`: rows in ascending
`Report_Date` order. -/
def sortReports : List Report → List Report
  | [] => []
  | r :: rs => insertReport r (sortReports rs)

/-- Model of `calculate_eps_sum(df_eps, dates, type)` (lines 230-254):
sorts the reports by date, then computes the per-date 4-quarter sum for every
query date. -/
def calculate_eps_sum (df_eps : EpsTable) (dates : List Date) (ty : String) :
    Except PyError (List (Option ℚ)) :=
  let df_eps_sorted : EpsTable := ⟨df_eps.cols, sortReports df_eps.rows⟩
  exceptMap (fun d => _calculate_eps_for_date df_eps_sorted d ty) dates

/-- Model of `SP500.set_type` (lines 56-69): raises `ValueError` unless the
mode is `"forward"` or `"trailing"`. -/
def set_type (ty : String) : Except PyError Unit :=
  if ty = "forward" ∨ ty = "trailing" then Except.ok ()
  else Except.error PyError.valueError

/-- One row of the derived P/E DataFrame: the `Date`, `Price`, `EPS`,
`PE_Ratio` and `Type` columns of `SP500.pe_ratio`. A `none` in `eps` or
`peRatio` is a NaN entry of the corresponding float column. -/
structure PERec where
  date : Date
  price : ℚ
  eps : Option ℚ
  peRatio : Option ℚ
  typ : String
deriving DecidableEq

/-- Model of the `SP500.pe_ratio` property (lines 144-162): joins the price
series with the derived EPS series and divides `Price` by `EPS`. In pandas
the EPS column holds NaN where the aggregator returned `None`, and dividing
by NaN yields NaN without raising; the model propagates `none` likewise. -/
def pe_ratio (df_eps : EpsTable) (price_df : List (Date × ℚ)) (ty : String) :
    Except PyError (List PERec) :=
  match calculate_eps_sum df_eps (price_df.map Prod.fst) ty with
  | Except.error e => Except.error e
  | Except.ok eps_values =>
    Except.ok ((price_df.zip eps_values).map (fun p =>
      { date := p.1.1
        price := p.1.2
        eps := p.2
        peRatio := p.2.map (fun v => p.1.2 / v)
        typ := ty }))

/-- Model of the `SP500.current_pe` property (lines 164-189): drops the rows
with NaN EPS and returns the last remaining row, or `None` when none is
left — `getLast?` is exactly that `if valid_df.empty: return None` plus
`valid_df.iloc[-1]`. -/
def current_pe (df_eps : EpsTable) (price_df : List (Date × ℚ)) (ty : String) :
    Except PyError (Option PERec) :=
  match pe_ratio df_eps price_df ty with
  | Except.error e => Except.error e
  | Except.ok pe_df =>
    Except.ok ((pe_df.filter (fun r => r.eps.isSome)).getLast?)

/-- Model of `np.mean` on the P/E series (line 368), floats idealised as ℚ. -/
def npMean (xs : List ℚ) : ℚ :=
  xs.sum / xs.length

/-- Population variance, the square of `np.std` (line 369, default ddof 0). -/
def npVariance (xs : List ℚ) : ℚ :=
  (xs.map (fun x => (x - npMean xs) ^ 2)).sum / xs.length

/-- Model of `np.std` (line 369): square root of the population variance. -/
noncomputable def npStd (xs : List ℚ) : ℝ :=
  Real.sqrt ((npVariance xs : ℚ) : ℝ)

/-- Model of `upper_threshold = pe_mean + std_threshold * pe_std` (line 370). -/
noncomputable def upper_threshold (xs : List ℚ) (k : ℝ) : ℝ :=
  ((npMean xs : ℚ) : ℝ) + k * npStd xs

/-- Model of `lower_threshold = pe_mean - std_threshold * pe_std` (line 371). -/
noncomputable def lower_threshold (xs : List ℚ) (k : ℝ) : ℝ :=
  ((npMean xs : ℚ) : ℝ) - k * npStd xs

/-- Model of the overvalued mask `pe_ratios > upper_threshold` (line 377):
strictly greater than the upper threshold. -/
def overvalued (xs : List ℚ) (k : ℝ) (x : ℚ) : Prop :=
  ((x : ℚ) : ℝ) > upper_threshold xs k

/-- Model of the undervalued mask `pe_ratios < lower_threshold` (line 378):
strictly less than the lower threshold. -/
def undervalued (xs : List ℚ) (k : ℝ) (x : ℚ) : Prop :=
  ((x : ℚ) : ℝ) < lower_threshold xs k

/-- The single-row EPS table of the end-to-end scenario: one report filed
2023-01-01 carrying the four columns Q1 through Q4 of year 23 with values
50, 51, 52, 53. -/
def tbl1 : EpsTable :=
  ⟨[⟨1, 23⟩, ⟨2, 23⟩, ⟨3, 23⟩, ⟨4, 23⟩],
   [⟨⟨2023, 1, 1⟩,
     [(⟨1, 23⟩, "50".toList), (⟨2, 23⟩, "51".toList),
      (⟨3, 23⟩, "52".toList), (⟨4, 23⟩, "53".toList)]⟩]⟩

/-- A table whose single report carries only three of the four quarter
columns of year 23: the label Q4 of year 23 is not a column at all. -/
def tbl2 : EpsTable :=
  ⟨[⟨1, 23⟩, ⟨2, 23⟩, ⟨3, 23⟩],
   [⟨⟨2023, 1, 1⟩,
     [(⟨1, 23⟩, "50".toList), (⟨2, 23⟩, "51".toList), (⟨3, 23⟩, "52".toList)]⟩]⟩

/-- A table with two reports revising the same quarter column: the earlier
report (2023-01-01) says 50, the later one (2023-03-01) says 60. -/
def tbl3 : EpsTable :=
  ⟨[⟨1, 23⟩],
   [⟨⟨2023, 1, 1⟩, [(⟨1, 23⟩, "50".toList)]⟩,
    ⟨⟨2023, 3, 1⟩, [(⟨1, 23⟩, "60".toList)]⟩]⟩

/-- Evaluation of the digit accumulator on the concrete cell texts used in
the concrete tables; stated once and shared by the concrete computations. -/
theorem digitsToNat_cells :
    digitsToNat [] = 0 ∧ digitsToNat ['5', '0'] = 50 ∧ digitsToNat ['5', '1'] = 51 ∧
    digitsToNat ['5', '2'] = 52 ∧ digitsToNat ['5', '3'] = 53 ∧ digitsToNat ['6', '0'] = 60 := by
  decide

/-- Stepping the absolute quarter index by one advances the label to the next
calendar quarter, wrapping Q4 into Q1 of the next (two-digit) year. -/
theorem mkLabel_succ (t : Int) : mkLabel (t + 1) = nextQuarter (mkLabel t) := by
  simp only [mkLabel, nextQuarter]
  split_ifs with h <;> simp only [QLabel.mk.injEq] <;> omega

/-- Pointwise description of `quarter_mapper`: entry `j` is the label of the
absolute quarter index shifted by `start + j`. -/
theorem quarter_mapper_getElem (d : Date) (s e : Int) (j : ℕ)
    (hj : j < (e + 1 - s).toNat) :
    (quarter_mapper d s e)[j]? =
      some (mkLabel (d.year * 4 + d.quarter - 1 + (s + j))) := by
  unfold quarter_mapper intRange
  rw [List.getElem?_map, List.getElem?_map, List.getElem?_range hj]
  rfl

/-- Length of the label list returned by `quarter_mapper`. -/
theorem quarter_mapper_length (d : Date) (s e : Int) :
    (quarter_mapper d s e).length = (e + 1 - s).toNat := by
  unfold quarter_mapper intRange
  rw [List.length_map, List.length_map, List.length_range]

/-- C3: for every report date and every pair of integer offsets with
start ≤ end, `quarter_mapper` returns exactly `end - start + 1` labels, in
offset order (each label is the calendar successor of the one before it,
with the two-digit year wrapping at a Q4 to Q1 boundary), and on the
concrete Q4 of 2024 date with offsets [0, 1] it returns the labels Q4 of
year 24 followed by Q1 of year 25. -/
theorem c3_quarter_mapper_shape (d : Date) (s e : Int) (h : s ≤ e) :
    (quarter_mapper d s e).length = (e - s + 1).toNat ∧
    (∀ j : ℕ, j + 1 < (quarter_mapper d s e).length →
      (quarter_mapper d s e)[j + 1]? = ((quarter_mapper d s e)[j]?).map nextQuarter) ∧
    quarter_mapper ⟨2024, 11, 5⟩ 0 1 = [⟨4, 24⟩, ⟨1, 25⟩] := by
  refine ⟨?_, ?_, by decide⟩
  · rw [quarter_mapper_length]
    congr 1
    omega
  · intro j hj
    rw [quarter_mapper_length] at hj
    rw [quarter_mapper_getElem d s e (j + 1) hj,
        quarter_mapper_getElem d s e j (by omega)]
    rw [Option.map_some']
    congr 1
    have harg : d.year * 4 + d.quarter - 1 + (s + (↑(j + 1) : Int)) =
        (d.year * 4 + d.quarter - 1 + (s + (↑j : Int))) + 1 := by
      push_cast
      ring
    rw [harg, mkLabel_succ]

/-- Witness for C3 at the report date 2024-11-05 (a Q4 date) and the offset
range [0, 1]. -/
theorem c3_quarter_mapper_shape_witness :
    (quarter_mapper ⟨2024, 11, 5⟩ 0 1).length = ((1 : Int) - 0 + 1).toNat ∧
    (∀ j : ℕ, j + 1 < (quarter_mapper ⟨2024, 11, 5⟩ 0 1).length →
      (quarter_mapper ⟨2024, 11, 5⟩ 0 1)[j + 1]? =
        ((quarter_mapper ⟨2024, 11, 5⟩ 0 1)[j]?).map nextQuarter) ∧
    quarter_mapper ⟨2024, 11, 5⟩ 0 1 = [⟨4, 24⟩, ⟨1, 25⟩] :=
  c3_quarter_mapper_shape ⟨2024, 11, 5⟩ 0 1 (by decide)

/-- C1 counterexample: on the end-to-end table, querying 2023-06-01 (a Q2
date) in forward mode needs the label Q1 of year 24, which is not a column
of the table, so the run raises a pandas KeyError instead of returning the
sum 206 the claim states. -/
theorem c1_counterexample :
    calculate_eps_sum tbl1 [⟨2023, 6, 1⟩] "forward" = Except.error PyError.keyError ∧
    calculate_eps_sum tbl1 [⟨2023, 6, 1⟩] "forward" ≠ Except.ok [some 206] := by
  have h : calculate_eps_sum tbl1 [⟨2023, 6, 1⟩] "forward" =
      Except.error PyError.keyError := by
    simp +decide [calculate_eps_sum, _calculate_eps_for_date, exceptMap, sortReports,
      insertReport, quarter_mapper, intRange, mkLabel, Date.le, Date.quarter,
      mostRecentCell, getCell, tbl1, List.range_succ]
  refine ⟨h, ?_⟩
  rw [h]
  intro hc
  exact Except.noConfusion hc

/-- C1 amended: on that table the forward aggregate is 206 at a Q1 2023
query date on or after the report date, here 2023-02-01, where the four
needed labels Q1 to Q4 of year 23 really are columns. -/
theorem c1_amended_forward_sum :
    calculate_eps_sum tbl1 [⟨2023, 2, 1⟩] "forward" = Except.ok [some 206] := by
  norm_num +decide [calculate_eps_sum, _calculate_eps_for_date, exceptMap, sortReports,
    insertReport, quarter_mapper, intRange, mkLabel, Date.le, Date.quarter,
    mostRecentCell, getCell, parseCell, pyFloat, parseUnsigned, stripStars,
    pyStrip, tbl1, List.range_succ, digitsToNat_cells.1, digitsToNat_cells.2.1,
    digitsToNat_cells.2.2.1, digitsToNat_cells.2.2.2.1, digitsToNat_cells.2.2.2.2.1]

/-- C2: evaluation of the aggregator at the failing input: the table whose
columns are only Q1 to Q3 of year 23, queried 2023-02-01 in forward mode.
The needed label Q4 of year 23 is absent as a column, and the column
selection raises a pandas KeyError; the dead `col in eps_filtered.columns`
guard on line 280 of `sp500.py` (and the spec) intended `None` instead. -/
theorem c2_missing_column_raises :
    _calculate_eps_for_date tbl2 ⟨2023, 2, 1⟩ "forward" =
      Except.error PyError.keyError := by
  simp +decide [_calculate_eps_for_date, quarter_mapper, intRange, mkLabel,
    Date.le, Date.quarter, tbl2, List.range_succ]

/-- C5: when no report is filed on or before the query date, the aggregator
returns the sentinel `None` and does not raise, whatever the mode string. -/
theorem c5_no_candidate_report (t : EpsTable) (d : Date) (ty : String)
    (h : ∀ r ∈ t.rows, Date.le r.reportDate d = false) :
    _calculate_eps_for_date t d ty = Except.ok none := by
  have hf : t.rows.filter (fun r => Date.le r.reportDate d) = [] :=
    List.filter_eq_nil_iff.mpr (by simpa using h)
  simp [_calculate_eps_for_date, hf]

/-- Witness for C5: the end-to-end table only has a 2023 report, so a 2020
query date has no candidate reports and yields `None`. -/
theorem c5_no_candidate_report_witness :
    _calculate_eps_for_date tbl1 ⟨2020, 1, 1⟩ "forward" = Except.ok none :=
  c5_no_candidate_report tbl1 ⟨2020, 1, 1⟩ "forward" (by decide)

/-- C9 counterexample: the aggregation functions do not validate the mode
string: with the invalid mode "bogus" the aggregator silently proceeds on
the trailing branch and returns the 4-quarter sum 206 for a 2024-02-01
query on the end-to-end table, instead of failing loudly. -/
theorem c9_counterexample :
    _calculate_eps_for_date tbl1 ⟨2024, 2, 1⟩ "bogus" = Except.ok (some 206) := by
  norm_num +decide [_calculate_eps_for_date, exceptMap, quarter_mapper, intRange,
    mkLabel, Date.le, Date.quarter, mostRecentCell, getCell, parseCell, pyFloat,
    parseUnsigned, stripStars, pyStrip, tbl1, List.range_succ,
    digitsToNat_cells.1, digitsToNat_cells.2.1, digitsToNat_cells.2.2.1,
    digitsToNat_cells.2.2.2.1, digitsToNat_cells.2.2.2.2.1]

/-- C9 amended: `set_type` does fail loudly on a mode string that is neither
"forward" nor "trailing", but the aggregation functions accept any string
and treat every mode other than "forward" exactly as "trailing". -/
theorem c9_amended_mode_validation :
    (∀ ty : String, ty ≠ "forward" → ty ≠ "trailing" →
      set_type ty = Except.error PyError.valueError) ∧
    (∀ (t : EpsTable) (d : Date) (ty : String), ty ≠ "forward" →
      _calculate_eps_for_date t d ty = _calculate_eps_for_date t d "trailing") := by
  constructor
  · intro ty h1 h2
    simp [set_type, h1, h2]
  · intro t d ty h
    simp [_calculate_eps_for_date, h]

/-- Witness for C9: the invalid mode string "bogus" at concrete inputs. -/
theorem c9_amended_mode_validation_witness :
    set_type "bogus" = Except.error PyError.valueError ∧
    _calculate_eps_for_date tbl1 ⟨2024, 2, 1⟩ "bogus" =
      _calculate_eps_for_date tbl1 ⟨2024, 2, 1⟩ "trailing" :=
  ⟨c9_amended_mode_validation.1 "bogus" (by decide) (by decide),
   c9_amended_mode_validation.2 tbl1 ⟨2024, 2, 1⟩ "bogus" (by decide)⟩

/-- Strict date order is incompatible with the reverse non-strict order. -/
theorem dateLT_le_asymm {a b : Date} (h1 : dateLT a b) (h2 : Date.le b a = true) :
    False := by
  unfold Date.le at h2
  rw [decide_eq_true_eq] at h2
  unfold dateLT at h1
  omega

/-- In a strictly date-sorted row list, the per-column resolver
`eps_filtered[col].dropna().iloc[-1]` returns the value of the row with the
latest report date among those carrying a non-missing value for the column. -/
theorem mostRecentCell_eq_of_latest (l : QLabel) :
    ∀ (rows : List Report) (r : Report) (v : List Char),
      rows.Pairwise (fun a b => dateLT a.reportDate b.reportDate) →
      r ∈ rows → getCell r l = some v →
      (∀ x ∈ rows, (getCell x l).isSome = true →
        Date.le x.reportDate r.reportDate = true) →
      mostRecentCell rows l = some v := by
  intro rows
  induction rows with
  | nil =>
    intro r v _ hr
    cases hr
  | cons x xs ih =>
    intro r v hp hr hv hmax
    rcases List.mem_cons.mp hr with heq | hmem
    · subst heq
      have hnone : ∀ a ∈ xs, getCell a l = none := by
        intro a ha
        cases hgc : getCell a l with
        | none => rfl
        | some w =>
          exfalso
          have hlt : dateLT r.reportDate a.reportDate :=
            (List.pairwise_cons.mp hp).1 a ha
          have hle : Date.le a.reportDate r.reportDate = true :=
            hmax a (List.mem_cons_of_mem _ ha) (by simp [hgc])
          exact dateLT_le_asymm hlt hle
      have hnil : xs.filterMap (fun a => getCell a l) = [] :=
        List.filterMap_eq_nil_iff.mpr hnone
      unfold mostRecentCell
      simp [List.filterMap_cons, hv, hnil]
    · have htail := ih r v (List.pairwise_cons.mp hp).2 hmem hv
        (fun a ha hs => hmax a (List.mem_cons_of_mem _ ha) hs)
      have hne : xs.filterMap (fun a => getCell a l) ≠ [] := by
        intro hnil
        have hrnone : getCell r l = none :=
          List.filterMap_eq_nil_iff.mp hnil r hmem
        rw [hv] at hrnone
        cases hrnone
      cases hx : getCell x l with
      | none =>
        unfold mostRecentCell at htail ⊢
        rw [List.filterMap_cons, hx]
        exact htail
      | some w =>
        unfold mostRecentCell at htail ⊢
        rw [List.filterMap_cons, hx]
        obtain ⟨y, ys, hyt⟩ := List.exists_cons_of_ne_nil hne
        rw [hyt] at htail ⊢
        rw [List.getLast?_cons_cons]
        exact htail

/-- C4: among the reports filed on or before the query date, the aggregator
takes, for a needed quarter label, the value of the latest such report (by
`Report_Date`) carrying a non-missing value for that label: later per-quarter
revisions override earlier ones. `mostRecentCell` applied to the filtered
candidate rows is exactly the value the aggregation uses for the label. The
rows are assumed strictly sorted by report date, which `calculate_eps_sum`
establishes by sorting and the data model guarantees by date uniqueness. -/
theorem c4_latest_revision_wins (t : EpsTable) (d : Date) (l : QLabel)
    (r : Report) (v : List Char)
    (hsorted : t.rows.Pairwise (fun a b => dateLT a.reportDate b.reportDate))
    (hmem : r ∈ t.rows) (hle : Date.le r.reportDate d = true)
    (hcell : getCell r l = some v)
    (hmax : ∀ x ∈ t.rows, Date.le x.reportDate d = true →
      (getCell x l).isSome = true → Date.le x.reportDate r.reportDate = true) :
    mostRecentCell (t.rows.filter (fun x => Date.le x.reportDate d)) l = some v := by
  apply mostRecentCell_eq_of_latest l _ r v
  · exact hsorted.sublist (List.filter_sublist _)
  · exact List.mem_filter.mpr ⟨hmem, hle⟩
  · exact hcell
  · intro x hx hs
    have hx2 := List.mem_filter.mp hx
    exact hmax x hx2.1 hx2.2 hs

/-- Witness for C4: in the two-report table the 2023-03-01 report revises the
Q1 of year 23 estimate from 50 to 60, and the revised value 60 wins at the
query date 2023-06-01. -/
theorem c4_latest_revision_wins_witness :
    mostRecentCell
      (tbl3.rows.filter (fun x => Date.le x.reportDate ⟨2023, 6, 1⟩)) ⟨1, 23⟩ =
      some "60".toList :=
  c4_latest_revision_wins tbl3 ⟨2023, 6, 1⟩ ⟨1, 23⟩
    ⟨⟨2023, 3, 1⟩, [(⟨1, 23⟩, "60".toList)]⟩ "60".toList
    (by decide) (by decide) (by decide) (by decide) (by decide)

/-- A successful `exceptMap` yields one output per input. -/
theorem exceptMap_ok_length {α β ε : Type} (f : α → Except ε β) :
    ∀ (xs : List α) (ys : List β), exceptMap f xs = Except.ok ys →
      ys.length = xs.length := by
  intro xs
  induction xs with
  | nil =>
    intro ys h
    cases h
    rfl
  | cons x xs ih =>
    intro ys h
    unfold exceptMap at h
    cases hfx : f x with
    | error e =>
      rw [hfx] at h
      cases h
    | ok y =>
      rw [hfx] at h
      cases hrest : exceptMap f xs with
      | error e =>
        rw [hrest] at h
        cases h
      | ok zs =>
        rw [hrest] at h
        cases h
        simp [ih zs hrest]

/-- C6: the joiner produces one output row per price date; each row's P/E
ratio is the price divided by the aggregated EPS when the EPS resolved, and
a missing value (NaN, `none`) when the EPS is unavailable — unavailability
propagates as missing data, never as a division error. -/
theorem c6_pe_join_propagates (t : EpsTable) (prices : List (Date × ℚ))
    (ty : String) (res : List PERec) (h : pe_ratio t prices ty = Except.ok res) :
    res.length = prices.length ∧
    ∀ rec ∈ res, (rec.eps = none → rec.peRatio = none) ∧
      (∀ v : ℚ, rec.eps = some v → rec.peRatio = some (rec.price / v)) := by
  unfold pe_ratio at h
  cases hc : calculate_eps_sum t (prices.map Prod.fst) ty with
  | error e =>
    rw [hc] at h
    cases h
  | ok eps_values =>
    rw [hc] at h
    cases h
    have hlen : eps_values.length = prices.length := by
      unfold calculate_eps_sum at hc
      have hml := exceptMap_ok_length _ _ _ hc
      simpa using hml
    constructor
    · simp [List.length_zip, hlen]
    · intro rec hrec
      obtain ⟨p, hp, rfl⟩ := List.mem_map.mp hrec
      obtain ⟨⟨pd, pp⟩, pe⟩ := p
      cases pe with
      | none => exact ⟨fun _ => rfl, fun v hv => nomatch hv⟩
      | some w =>
        refine ⟨(fun hcontra => nomatch hcontra), fun v hv => ?_⟩
        cases hv
        rfl

/-- Witness for C6 on the end-to-end table with one resolvable price date
and one unresolvable one. -/
theorem c6_pe_join_propagates_witness :
    ([⟨⟨2023, 2, 1⟩, 1000, some 206, some (1000 / 206), "forward"⟩,
      ⟨⟨2020, 1, 1⟩, 5, none, none, "forward"⟩] : List PERec).length =
      ([(⟨2023, 2, 1⟩, 1000), (⟨2020, 1, 1⟩, 5)] : List (Date × ℚ)).length ∧
    ∀ rec ∈ ([⟨⟨2023, 2, 1⟩, 1000, some 206, some (1000 / 206), "forward"⟩,
        ⟨⟨2020, 1, 1⟩, 5, none, none, "forward"⟩] : List PERec),
      (rec.eps = none → rec.peRatio = none) ∧
      (∀ v : ℚ, rec.eps = some v → rec.peRatio = some (rec.price / v)) :=
  c6_pe_join_propagates tbl1 [(⟨2023, 2, 1⟩, 1000), (⟨2020, 1, 1⟩, 5)] "forward"
    [⟨⟨2023, 2, 1⟩, 1000, some 206, some (1000 / 206), "forward"⟩,
     ⟨⟨2020, 1, 1⟩, 5, none, none, "forward"⟩]
    (by norm_num +decide [pe_ratio, calculate_eps_sum, _calculate_eps_for_date,
      exceptMap, sortReports, insertReport, quarter_mapper, intRange, mkLabel,
      Date.le, Date.quarter, mostRecentCell, getCell, parseCell, pyFloat,
      parseUnsigned, stripStars, pyStrip, tbl1, List.range_succ,
      digitsToNat_cells.1, digitsToNat_cells.2.1, digitsToNat_cells.2.2.1,
      digitsToNat_cells.2.2.2.1, digitsToNat_cells.2.2.2.2.1])

/-- The mean of a nonempty constant series is the constant. -/
theorem npMean_const (xs : List ℚ) (c : ℚ) (hne : xs ≠ []) (hc : ∀ x ∈ xs, x = c) :
    npMean xs = c := by
  unfold npMean
  rw [List.sum_eq_card_nsmul xs c hc, nsmul_eq_mul]
  have hlen : (xs.length : ℚ) ≠ 0 := by
    simpa [List.length_eq_zero] using hne
  exact mul_div_cancel_left₀ c hlen

/-- The population variance of a nonempty constant series is zero. -/
theorem npVariance_const (xs : List ℚ) (c : ℚ) (hne : xs ≠ [])
    (hc : ∀ x ∈ xs, x = c) : npVariance xs = 0 := by
  unfold npVariance
  have h0 : ∀ y ∈ xs.map (fun x => (x - npMean xs) ^ 2), y = 0 := by
    intro y hy
    obtain ⟨x, hx, rfl⟩ := List.mem_map.mp hy
    rw [hc x hx, npMean_const xs c hne hc]
    ring
  rw [List.sum_eq_zero h0, zero_div]

/-- C7: on a constant nonempty series the statistical bander flags nothing,
for every threshold multiplier: the standard deviation is zero, the upper and
lower thresholds both equal the mean, and the strict greater-than and strict
less-than mask comparisons are false at every point of the series. -/
theorem c7_constant_series_never_flagged (xs : List ℚ) (c : ℚ) (k : ℝ)
    (hne : xs ≠ []) (hc : ∀ x ∈ xs, x = c) :
    npStd xs = 0 ∧
    upper_threshold xs k = ((npMean xs : ℚ) : ℝ) ∧
    lower_threshold xs k = ((npMean xs : ℚ) : ℝ) ∧
    ∀ x ∈ xs, ¬ overvalued xs k x ∧ ¬ undervalued xs k x := by
  have hstd : npStd xs = 0 := by
    unfold npStd
    rw [npVariance_const xs c hne hc]
    simp
  have hup : upper_threshold xs k = ((npMean xs : ℚ) : ℝ) := by
    unfold upper_threshold
    rw [hstd]
    ring
  have hlo : lower_threshold xs k = ((npMean xs : ℚ) : ℝ) := by
    unfold lower_threshold
    rw [hstd]
    ring
  refine ⟨hstd, hup, hlo, ?_⟩
  intro x hx
  have hmean : npMean xs = c := npMean_const xs c hne hc
  constructor
  · unfold overvalued
    rw [hup, hmean, hc x hx]
    exact lt_irrefl _
  · unfold undervalued
    rw [hlo, hmean, hc x hx]
    exact lt_irrefl _

/-- Witness for C7 on the constant series 5, 5, 5 with the default threshold
multiplier 1.5. -/
theorem c7_constant_series_never_flagged_witness :
    npStd [5, 5, 5] = 0 ∧
    upper_threshold [5, 5, 5] (3 / 2) = ((npMean [5, 5, 5] : ℚ) : ℝ) ∧
    lower_threshold [5, 5, 5] (3 / 2) = ((npMean [5, 5, 5] : ℚ) : ℝ) ∧
    ∀ x ∈ ([5, 5, 5] : List ℚ), ¬ overvalued [5, 5, 5] (3 / 2) x ∧
      ¬ undervalued [5, 5, 5] (3 / 2) x :=
  c7_constant_series_never_flagged [5, 5, 5] 5 (3 / 2) (by decide) (by decide)

/-- C8 counterexample: only asterisks are stripped, not every non-numeric
annotation character: a cell annotated with a hash sign fails to parse and
raises ValueError, while the unannotated cell parses to 50. -/
theorem c8_counterexample :
    parseCell ['5', '0', '#'] = Except.error PyError.valueError ∧
    parseCell ['5', '0'] = Except.ok 50 := by
  constructor
  · simp +decide [parseCell, pyFloat, parseUnsigned, pyStrip, stripStars]
  · norm_num +decide [parseCell, pyFloat, parseUnsigned, pyStrip, stripStars,
      digitsToNat_cells.2.1]

/-- C8 amended: the cleaning step removes exactly asterisk characters (plus
surrounding whitespace), so a cell text is parsed identically with or
without an asterisk inserted anywhere in it. -/
theorem c8_amended_star_insensitive (s t : List Char) :
    parseCell (s ++ '*' :: t) = parseCell (s ++ t) := by
  unfold parseCell stripStars
  rw [List.filter_append, List.filter_cons, List.filter_append]
  simp

/-- C10: when every row of the joined P/E frame has an unavailable (NaN)
EPS, `current_pe` returns `None` rather than the documented dict. -/
theorem c10_current_pe_none (t : EpsTable) (prices : List (Date × ℚ))
    (ty : String) (res : List PERec) (h1 : pe_ratio t prices ty = Except.ok res)
    (h2 : ∀ rec ∈ res, rec.eps = none) :
    current_pe t prices ty = Except.ok none := by
  unfold current_pe
  simp only [h1]
  have hnil : res.filter (fun r => r.eps.isSome) = [] := by
    apply List.filter_eq_nil_iff.mpr
    intro a ha
    simp [h2 a ha]
  rw [hnil]
  rfl

/-- Witness for C10: a single price date before any report resolves no EPS,
and `current_pe` yields `None`. -/
theorem c10_current_pe_none_witness :
    current_pe tbl1 [(⟨2020, 1, 1⟩, 100)] "forward" = Except.ok none :=
  c10_current_pe_none tbl1 [(⟨2020, 1, 1⟩, 100)] "forward"
    [⟨⟨2020, 1, 1⟩, 100, none, none, "forward"⟩]
    (by simp +decide [pe_ratio, calculate_eps_sum, _calculate_eps_for_date,
      exceptMap, sortReports, insertReport, Date.le, tbl1])
    (by decide)
